import Mathlib

set_option maxRecDepth 8000

/-!
Verification of the Farmer Training Module generator (src/app.py).

The Python program is embedded shallowly:

* `AgricultureExpert.CROP_INFO` / `PROBLEM_SOLUTIONS` become association
  lists; dictionary access with an `in` test becomes `List.lookup`.
* Python's `str.lower()` / `str.upper()` / `str.title()` / `str.strip()`
  are modelled character-wise (`pyLower`, `pyUpper`, `pyTitle`, `pyStrip`);
  the program only compares against ASCII keys, and `Char.toLower` /
  `Char.toUpper` agree with Python on ASCII.
* Python's builtin `hash` on strings is runtime-internal and not part of
  the repository; following the spec (section 4.2 and the design note in
  section 9: the exact hash is not contractually fixed, only that it is a
  deterministic non-negative integer function with `mod` indexing), it is
  modelled as 64-bit FNV-1a over the characters (`stringHash`).
* The wall-clock timestamp is impure; `create_module` receives the
  already-formatted time string as an explicit argument.
* The Flask route `generate_training_module` is modelled on a record of
  optional request fields (absent JSON key = `none`); `jsonify(...), 400`
  becomes a constructor carrying the error string and the status code.
-/

/-- One entry of `AgricultureExpert.CROP_INFO` (src/app.py lines 16-38): the
value dictionary for one crop. -/
structure CropInfo where
  name : String
  season : String
  water : String
  spacing : String
  duration : String
deriving DecidableEq

/-- One entry of `AgricultureExpert.PROBLEM_SOLUTIONS` (src/app.py lines
40-71): the value dictionary for one problem. -/
structure ProblemSolution where
  key_techniques : List String
  steps : List String
  benefits : String
deriving DecidableEq

/-- Python `str.lower()`, character-wise (ASCII-faithful). -/
def pyLower (s : String) : String := ⟨s.data.map Char.toLower⟩

/-- Python `str.upper()`, character-wise (ASCII-faithful). -/
def pyUpper (s : String) : String := ⟨s.data.map Char.toUpper⟩

/-- Helper for `pyTitle`: the boolean argument records whether the previous
character was cased (alphabetic), exactly Python's title-casing rule. -/
def pyTitleAux : Bool → List Char → List Char
  | _, [] => []
  | prevCased, c :: cs =>
    (if c.isAlpha then (if prevCased then c.toLower else c.toUpper) else c)
      :: pyTitleAux c.isAlpha cs

/-- Python `str.title()` (ASCII-faithful): uppercase a letter that follows a
non-letter, lowercase a letter that follows a letter. -/
def pyTitle (s : String) : String := ⟨pyTitleAux false s.data⟩

/-- The six characters Python `str.strip()` removes (ASCII whitespace). -/
def isPySpace (c : Char) : Bool :=
  c = ' ' || c = '\t' || c = '\n' || c = '\r' || c = '\x0b' || c = '\x0c'

/-- `str.strip()` on the character list: drop whitespace from both ends. -/
def stripChars (l : List Char) : List Char :=
  ((l.dropWhile isPySpace).reverse.dropWhile isPySpace).reverse

/-- Python `str.strip()`. -/
def pyStrip (s : String) : String := ⟨stripChars s.data⟩

/-- `AgricultureExpert.CROP_INFO` (src/app.py lines 16-38). -/
def CROP_INFO : List (String × CropInfo) :=
  [("rice",
    { name := "Rice",
      season := "Kharif (June to October)",
      water := "Needs standing water, 5-7 cm depth",
      spacing := "20 cm between plants, 20 cm between rows",
      duration := "120-150 days from sowing to harvest" }),
   ("wheat",
    { name := "Wheat",
      season := "Rabi (November to March)",
      water := "4-6 irrigations, avoid waterlogging",
      spacing := "5 cm between plants, 22 cm between rows",
      duration := "110-130 days" }),
   ("tomato",
    { name := "Tomato",
      season := "Year-round with care",
      water := "Regular watering, avoid wet leaves",
      spacing := "45 cm between plants, 60 cm between rows",
      duration := "90-120 days" })]

/-- `AgricultureExpert.PROBLEM_SOLUTIONS` (src/app.py lines 40-71). -/
def PROBLEM_SOLUTIONS : List (String × ProblemSolution) :=
  [("irrigation",
    { key_techniques := ["Drip irrigation", "Sprinkler systems", "Rainwater harvesting"],
      steps := ["Measure soil moisture regularly",
                "Water at plant roots, not leaves",
                "Water early morning or evening",
                "Adjust based on weather conditions"],
      benefits := "Saves 30-50% water, increases yield by 20-30%" }),
   ("pest control",
    { key_techniques := ["Integrated Pest Management", "Neem oil spray", "Companion planting"],
      steps := ["Regular field inspection",
                "Identify pest type correctly",
                "Use natural predators first",
                "Apply chemicals only if needed"],
      benefits := "Reduces chemical use by 40-60%, protects beneficial insects" }),
   ("soil health",
    { key_techniques := ["Organic compost", "Crop rotation", "Green manure"],
      steps := ["Test soil every season",
                "Add organic matter regularly",
                "Maintain proper pH level",
                "Avoid soil compaction"],
      benefits := "Improves yield by 25-40%, reduces fertilizer need" })]

/-- `AgricultureExpert.get_crop_details` (src/app.py lines 73-86). -/
def get_crop_details (crop_name : String) : CropInfo :=
  let crop_lower := pyLower crop_name
  match CROP_INFO.lookup crop_lower with
  | some info => info
  | none =>
    { name := pyTitle crop_name,
      season := "Adapt to local season",
      water := "Based on local conditions",
      spacing := "Follow seed packet instructions",
      duration := "Varies by variety" }

/-- `AgricultureExpert.get_problem_solution` (src/app.py lines 88-99). -/
def get_problem_solution (problem_name : String) : ProblemSolution :=
  let problem_lower := pyLower problem_name
  match PROBLEM_SOLUTIONS.lookup problem_lower with
  | some solution => solution
  | none =>
    { key_techniques := ["Integrated approach", "Regular monitoring"],
      steps := ["Assess situation", "Plan solution", "Implement carefully"],
      benefits := "Improved crop health and yield" }

/-- Python's builtin `hash` of a string, which src/app.py line 120 applies to
the concatenated inputs.  The builtin is runtime-internal (not code of this
repository); the spec fixes only a deterministic non-negative integer hash
(sections 4.2 and 9), modelled here as 64-bit FNV-1a over the characters. -/
def stringHash (s : String) : Nat :=
  s.data.foldl (fun h c => ((h ^^^ c.toNat) * 1099511628211) % (2 ^ 64))
    14695981039346656037

/-- The local `insights` list of `AISystem.generate_ai_insight` (src/app.py
lines 112-117): the four f-string templates. -/
def ai_insights (crop region problem : String) : List String :=
  ["AI analysis suggests focusing on " ++ region ++ "-specific adaptation for " ++ crop ++ ".",
   "Machine learning models indicate integrated approach works best for " ++ problem ++ ".",
   "Data patterns show " ++ crop ++ " responds well to timely " ++ problem ++ " management.",
   "AI recommendation: Combine traditional knowledge with modern techniques."]

/-- `AISystem.generate_ai_insight` (src/app.py lines 105-121): hash the
concatenation of the three raw inputs, index the template list modulo its
length. -/
def generate_ai_insight (crop region problem : String) : String :=
  let insights := ai_insights crop region problem
  let input_hash := stringHash (crop ++ region ++ problem) % insights.length
  insights.getD input_hash ""

/-- `AISystem.check_ai_availability` (src/app.py lines 123-131). -/
def check_ai_availability : Bool := true

/-- The `metadata` dictionary of `TrainingModuleBuilder.create_module`
(src/app.py lines 297-304). -/
structure Metadata where
  generation_time : String
  crop : String
  region : String
  problem : String
  language : String
  ai_used : Bool
deriving DecidableEq

/-- The return value of `TrainingModuleBuilder.create_module`
(src/app.py lines 295-305). -/
structure ModuleResult where
  content : String
  metadata : Metadata
deriving DecidableEq

/-- The `module_content` f-string of `TrainingModuleBuilder.create_module`
(src/app.py lines 156-293), with every interpolated expression a parameter:
`crop_info` / `problem_solution` are the two lookups, `ai_insight` the
insight string (empty when unavailable), `ai_available` the availability
flag.  The text between interpolations is copied verbatim. -/
def module_content_text (crop_info : CropInfo) (problem_solution : ProblemSolution)
    (region language formatted_time problem : String)
    (ai_available : Bool) (ai_insight : String) : String :=
  "\n# FARMER TRAINING MODULE\n## Crop: "
  ++ crop_info.name
  ++ " | Region: "
  ++ region
  ++ " | Language: "
  ++ language
  ++ "\n\n### 📅 GENERATED ON: "
  ++ formatted_time
  ++ "\n\n---\n\n## 🌾 ABOUT THIS CROP\n\n**Crop Name:** "
  ++ crop_info.name
  ++ "\n**Best Season:** "
  ++ crop_info.season
  ++ "\n**Water Needs:** "
  ++ crop_info.water
  ++ "\n**Plant Spacing:** "
  ++ crop_info.spacing
  ++ "\n**Growth Duration:** "
  ++ crop_info.duration
  ++ "\n\n---\n\n## 🎯 FOCUS AREA: "
  ++ pyUpper problem
  ++ "\n\n### AI-GENERATED INSIGHT:\n"
  ++ (if ai_insight = "" then "System analysis recommends integrated management approach." else ai_insight)
  ++ "\n\n### RECOMMENDED TECHNIQUES:\n"
  ++ String.intercalate " • " problem_solution.key_techniques
  ++ "\n\n### STEP-BY-STEP GUIDE:\n\n1. **Week 1-2: Assessment & Planning**\n   - Evaluate current "
  ++ problem
  ++ " conditions\n   - Gather necessary tools and resources\n   - Create implementation schedule\n\n2. **Week 3-8: Implementation**\n   "
  ++ String.intercalate "\n" (problem_solution.steps.map (fun step => "   - " ++ step))
  ++ "\n   - Monitor progress weekly\n   - Make adjustments as needed\n\n3. **Week 9-12: Evaluation**\n   - Measure results and improvements\n   - Document lessons learned\n   - Share knowledge with other farmers\n\n### KEY BENEFITS:\n"
  ++ problem_solution.benefits
  ++ "\n\n### REGION-SPECIFIC ADVICE FOR "
  ++ pyUpper region
  ++ ":\n- Consider local weather patterns\n- Adapt to soil conditions in your area\n- Consult local agriculture department\n- Join local farmer groups for support\n\n---\n\n## 📊 EXPECTED RESULTS\n\n### QUANTITATIVE IMPROVEMENTS:\n- "
  ++ problem
  ++ " management: 40-60% better\n- Crop yield increase: 20-35%\n- Input cost reduction: 15-25%\n- Labor efficiency: 20-30% improvement\n\n### QUALITATIVE BENEFITS:\n- Healthier crops\n- Better soil quality"
  ++ "\n- More sustainable farming\n- Increased confidence in farming\n\n---\n\n## 🛠️ IMPLEMENTATION TIPS\n\n### DO'S:\n✓ Start with small pilot area\n✓ Keep detailed records\n✓ Monitor daily progress\n✓ Seek expert advice when needed"
  ++ "\n✓ Share results with community\n\n### DON'TS:\n✗ Don't implement everything at once\n✗ Don't ignore warning signs\n✗ Don't skip monitoring\n✗ Don't work in isolation\n✗ Don't forget to document\n\n---\n"
  ++ "\n## ❓ FREQUENTLY ASKED QUESTIONS\n\n**Q: How long before I see results?**\nA: Most farmers see improvements within 4-6 weeks.\n\n**Q: What if it doesn't work for my farm?**"
  ++ "\nA: Adjust the approach based on your specific conditions and consult local experts.\n\n**Q: Is this expensive to implement?**\nA: Many techniques are low-cost, and the yield increase usually covers any costs.\n"
  ++ "\n**Q: Can I use this with other crops?**\nA: Yes, adapt the principles to other crops you grow.\n\n---\n\n## 🔧 SYSTEM INFORMATION\n\n### TECHNOLOGY USED:\n- Web Application: Flask Python Framework"
  ++ "\n- Knowledge Base: Agricultural Expert System\n- AI Integration: Generative AI System Architecture\n- Interface: Responsive Web Design\n\n### GENERATION DETAILS:\n- Module Created: "
  ++ formatted_time
  ++ "\n- AI Assistance: "
  ++ (if ai_available then "Available" else "Not available")
  ++ "\n- Content Type: Personalized farming guidance\n- System Status: Operational\n\n---\n\n## 📞 GETTING HELP\n\n### LOCAL RESOURCES:\n- Contact "
  ++ region
  ++ " Agriculture Department\n- Visit nearest Krishi Vigyan Kendra (KVK)\n- Join farmer WhatsApp groups\n- Attend local farming workshops\n\n### DIGITAL TOOLS:\n- Use weather forecast apps\n- Try soil testing mobile apps"
  ++ "\n- Watch farming tutorial videos\n- Join online farmer communities\n\n---\n*This training module was generated automatically based on agricultural best practices.*"
  ++ "\n*Always consult local agricultural experts before implementing new techniques.*\n"

/-- `TrainingModuleBuilder.create_module` (src/app.py lines 137-305).  The
formatted timestamp (line 143) is impure and is received as an argument;
everything after it follows the source line by line, with the f-string body
in `module_content_text`. -/
def create_module (crop region problem language formatted_time : String) : ModuleResult :=
  let crop_info := get_crop_details crop
  let problem_solution := get_problem_solution problem
  let ai_available := check_ai_availability
  let ai_insight := if ai_available then generate_ai_insight crop region problem else ""
  let module_content := module_content_text crop_info problem_solution
    region language formatted_time problem ai_available ai_insight
  { content := pyStrip module_content,
    metadata :=
      { generation_time := formatted_time,
        crop := crop,
        region := region,
        problem := problem,
        language := language,
        ai_used := ai_available } }

/-- The JSON payload of a `/generate` request: each field is `none` when the
key is absent (src/app.py lines 320-327 read them with `.get`). -/
structure RequestData where
  crop : Option String
  region : Option String
  problem : Option String
  language : Option String
deriving DecidableEq

/-- The `data` object of a success response (src/app.py lines 350-356). -/
structure ResponseData where
  title : String
  subtitle : String
  content : String
  language : String
deriving DecidableEq

/-- The `system_info` object of a success response (src/app.py lines
357-360). -/
structure SystemInfo where
  generated_at : String
  ai_assistance : Bool
deriving DecidableEq

/-- A `/generate` response: `jsonify(...)` on success, or
`jsonify({success: False, error}), status` on validation failure. -/
inductive GenerateResponse where
  | ok (data : ResponseData) (system_info : SystemInfo)
  | clientError (error : String) (status : Nat)
deriving DecidableEq

/-- The `/generate` route handler `generate_training_module` (src/app.py
lines 315-371): read each field with a default, strip the three required
ones, reject with a 400 response when one is empty, otherwise build the
module and wrap it.  The timestamp is passed through to `create_module`. -/
def generate_training_module (request_data : RequestData) (formatted_time : String) :
    GenerateResponse :=
  let crop_type := pyStrip (request_data.crop.getD "")
  let region_name := pyStrip (request_data.region.getD "")
  let problem_type := pyStrip (request_data.problem.getD "")
  let language_pref := request_data.language.getD "English"
  if crop_type = "" ∨ region_name = "" ∨ problem_type = "" then
    GenerateResponse.clientError "Please fill in all fields: Crop, Region, and Problem" 400
  else
    let module_data := create_module crop_type region_name problem_type language_pref formatted_time
    GenerateResponse.ok
      { title := pyTitle crop_type ++ " Farming Training Module",
        subtitle := "Region: " ++ region_name ++ " | Focus: " ++ pyTitle problem_type,
        content := module_data.content,
        language := language_pref }
      { generated_at := module_data.metadata.generation_time,
        ai_assistance := module_data.metadata.ai_used }

/-- `sub` occurs contiguously inside `s`. -/
abbrev containsStr (s sub : String) : Prop := sub.data <:+: s.data

/-! ## Helper lemmas -/

theorem data_append (a b : String) : (a ++ b).data = a.data ++ b.data := rfl

theorem contains_right {s m : String} (a : String) (h : containsStr s m) :
    containsStr (a ++ s) m := by
  obtain ⟨x, y, hxy⟩ := h
  refine ⟨a.data ++ x, y, ?_⟩
  simp only [List.append_assoc] at hxy ⊢
  rw [data_append, hxy]

theorem contains_left {s m : String} (b : String) (h : containsStr s m) :
    containsStr (s ++ b) m := by
  obtain ⟨x, y, hxy⟩ := h
  refine ⟨x, y ++ b.data, ?_⟩
  rw [data_append, ← hxy]
  simp only [List.append_assoc]

theorem contains_refl (s : String) : containsStr s s :=
  ⟨[], [], by simp⟩

theorem contains_trans {a b c : String} (h1 : containsStr b c) (h2 : containsStr a b) :
    containsStr a c :=
  List.IsInfix.trans h1 h2

/-- A span of three adjacent components of a left-associated append chain is
contained in the chain. -/
theorem contains_span3 (p a b c : String) :
    containsStr (((p ++ a) ++ b) ++ c) (a ++ (b ++ c)) := by
  refine ⟨p.data, [], ?_⟩
  simp only [data_append, List.append_assoc, List.append_nil]

/-- The head of a character list exists and is not Python whitespace. -/
def okHead : List Char → Bool
  | [] => false
  | c :: _ => !isPySpace c

/-- An occurrence of `m` whose first character is not whitespace survives
`dropWhile isPySpace`. -/
theorem dropWhile_keeps {m : List Char} (l : List Char) (hm : okHead m = true)
    (h : m <:+: l) : m <:+: l.dropWhile isPySpace := by
  induction l with
  | nil => exact h
  | cons b l ih =>
    cases hb : isPySpace b with
    | false => simpa [List.dropWhile_cons, hb] using h
    | true =>
      rcases List.infix_cons_iff.mp h with hpre | htail
      · exfalso
        cases m with
        | nil => simp [okHead] at hm
        | cons a m' =>
          obtain ⟨t, ht⟩ := hpre
          rw [List.cons_append] at ht
          injection ht with h1 _
          rw [h1] at hm
          simp [okHead, hb] at hm
      · simpa [List.dropWhile_cons, hb] using ih htail

/-- An occurrence of `m` that neither starts nor ends in whitespace survives
`str.strip()`. -/
theorem strip_keeps {m l : List Char} (h : m <:+: l)
    (ha : okHead m = true) (hz : okHead m.reverse = true) :
    m <:+: stripChars l := by
  unfold stripChars
  have s1 := dropWhile_keeps l ha h
  have s2 := dropWhile_keeps _ hz (List.IsInfix.reverse s1)
  have s3 := List.IsInfix.reverse s2
  rwa [List.reverse_reverse] at s3

/-- The `content` of `create_module` is the stripped f-string, with the two
lookups and the insight plugged in (definitional unfolding). -/
theorem cm_content (crop region problem language formatted_time : String) :
    (create_module crop region problem language formatted_time).content
      = pyStrip (module_content_text (get_crop_details crop) (get_problem_solution problem)
          region language formatted_time problem check_ai_availability
          (if check_ai_availability then generate_ai_insight crop region problem else "")) := rfl

/-- `strip_keeps` lifted to `pyStrip` on strings. -/
theorem pyStrip_keeps {s m : String} (h : containsStr s m)
    (ha : okHead m.data = true) (hz : okHead m.data.reverse = true) :
    containsStr (pyStrip s) m := by
  have hd : (pyStrip s).data = stripChars s.data := rfl
  unfold containsStr
  rw [hd]
  exact strip_keeps h ha hz

/-- Transfer a substring of the raw `module_content` f-string into the
stripped `content` of `create_module`, provided the substring neither starts
nor ends in whitespace. -/
theorem content_keeps {crop region problem language formatted_time m : String}
    (ha : okHead m.data = true) (hz : okHead m.data.reverse = true)
    (h : containsStr (module_content_text (get_crop_details crop) (get_problem_solution problem)
          region language formatted_time problem check_ai_availability
          (if check_ai_availability then generate_ai_insight crop region problem else "")) m) :
    containsStr (create_module crop region problem language formatted_time).content m := by
  rw [cm_content]
  exact pyStrip_keeps h ha hz

/-- A string with a non-empty substring is itself non-empty. -/
theorem string_ne_empty {s m : String} (h : containsStr s m) (hm : m.data ≠ []) :
    s ≠ "" := by
  intro hs
  rw [hs] at h
  exact hm (List.infix_nil.mp h)

/-- Appending a string whose data is non-empty gives a non-empty string. -/
theorem str_app_ne_empty (a b : String) (hb : b.data ≠ []) : a ++ b ≠ "" := by
  intro h
  have hd := congrArg String.data h
  rw [data_append] at hd
  exact hb (List.append_eq_nil.mp hd).2

/-- The selected insight is always a member of the four-template list. -/
theorem insight_mem (crop region problem : String) :
    generate_ai_insight crop region problem ∈ ai_insights crop region problem := by
  have h4 : stringHash (crop ++ region ++ problem) % 4 < 4 := Nat.mod_lt _ (by decide)
  show (ai_insights crop region problem).getD (stringHash (crop ++ region ++ problem) % 4) ""
    ∈ ai_insights crop region problem
  rcases (by omega :
      stringHash (crop ++ region ++ problem) % 4 = 0
      ∨ stringHash (crop ++ region ++ problem) % 4 = 1
      ∨ stringHash (crop ++ region ++ problem) % 4 = 2
      ∨ stringHash (crop ++ region ++ problem) % 4 = 3) with h | h | h | h <;>
    rw [h] <;> simp [ai_insights]

/-- C2: an input whose lowercasing equals a recognized crop key ("rice",
"wheat", "tomato") is looked up to the exact predefined crop profile, and an
input whose lowercasing equals a recognized problem key ("irrigation",
"pest control", "soil health") to the exact predefined problem profile;
matching is case-insensitive, so "RICE", "Rice" and "rice" all give the same
predefined profile. -/
theorem lookup_recognized_profiles (s : String) :
    (pyLower s = "rice" → get_crop_details s =
      { name := "Rice", season := "Kharif (June to October)",
        water := "Needs standing water, 5-7 cm depth",
        spacing := "20 cm between plants, 20 cm between rows",
        duration := "120-150 days from sowing to harvest" }) ∧
    (pyLower s = "wheat" → get_crop_details s =
      { name := "Wheat", season := "Rabi (November to March)",
        water := "4-6 irrigations, avoid waterlogging",
        spacing := "5 cm between plants, 22 cm between rows",
        duration := "110-130 days" }) ∧
    (pyLower s = "tomato" → get_crop_details s =
      { name := "Tomato", season := "Year-round with care",
        water := "Regular watering, avoid wet leaves",
        spacing := "45 cm between plants, 60 cm between rows",
        duration := "90-120 days" }) ∧
    (pyLower s = "irrigation" → get_problem_solution s =
      { key_techniques := ["Drip irrigation", "Sprinkler systems", "Rainwater harvesting"],
        steps := ["Measure soil moisture regularly", "Water at plant roots, not leaves",
                  "Water early morning or evening", "Adjust based on weather conditions"],
        benefits := "Saves 30-50% water, increases yield by 20-30%" }) ∧
    (pyLower s = "pest control" → get_problem_solution s =
      { key_techniques := ["Integrated Pest Management", "Neem oil spray", "Companion planting"],
        steps := ["Regular field inspection", "Identify pest type correctly",
                  "Use natural predators first", "Apply chemicals only if needed"],
        benefits := "Reduces chemical use by 40-60%, protects beneficial insects" }) ∧
    (pyLower s = "soil health" → get_problem_solution s =
      { key_techniques := ["Organic compost", "Crop rotation", "Green manure"],
        steps := ["Test soil every season", "Add organic matter regularly",
                  "Maintain proper pH level", "Avoid soil compaction"],
        benefits := "Improves yield by 25-40%, reduces fertilizer need" }) ∧
    get_crop_details "RICE" = get_crop_details "rice" ∧
    get_crop_details "Rice" = get_crop_details "rice" := by
  refine ⟨?_, ?_, ?_, ?_, ?_, ?_, by decide, by decide⟩ <;> intro h <;>
    first
    | (simp only [get_crop_details, h]; rfl)
    | (simp only [get_problem_solution, h]; rfl)

/-- Witness for C2: the all-caps input "RICE" lowercases to the key "rice"
and is looked up to the predefined rice profile. -/
theorem lookup_recognized_profiles_witness :
    pyLower "RICE" = "rice" ∧
    get_crop_details "RICE" =
      { name := "Rice", season := "Kharif (June to October)",
        water := "Needs standing water, 5-7 cm depth",
        spacing := "20 cm between plants, 20 cm between rows",
        duration := "120-150 days from sowing to harvest" } :=
  ⟨by decide, (lookup_recognized_profiles "RICE").1 (by decide)⟩

/-- C3: the lookups are total; when the lowercased input matches no key the
generated default profile is returned — for crops named by the title-cased
original input with the four fixed fallback fields, for problems the fixed
default techniques, steps and benefits. -/
theorem lookup_default_profiles (s : String) :
    (CROP_INFO.lookup (pyLower s) = none → get_crop_details s =
      { name := pyTitle s, season := "Adapt to local season",
        water := "Based on local conditions",
        spacing := "Follow seed packet instructions",
        duration := "Varies by variety" }) ∧
    (PROBLEM_SOLUTIONS.lookup (pyLower s) = none → get_problem_solution s =
      { key_techniques := ["Integrated approach", "Regular monitoring"],
        steps := ["Assess situation", "Plan solution", "Implement carefully"],
        benefits := "Improved crop health and yield" }) := by
  constructor <;> intro h
  · simp only [get_crop_details, h]
  · simp only [get_problem_solution, h]

/-- Witness for C3: the unrecognized inputs "Quinoa" and "drought stress"
produce the generated defaults. -/
theorem lookup_default_profiles_witness :
    CROP_INFO.lookup (pyLower "Quinoa") = none ∧
    get_crop_details "Quinoa" =
      { name := pyTitle "Quinoa", season := "Adapt to local season",
        water := "Based on local conditions",
        spacing := "Follow seed packet instructions",
        duration := "Varies by variety" } ∧
    PROBLEM_SOLUTIONS.lookup (pyLower "drought stress") = none ∧
    get_problem_solution "drought stress" =
      { key_techniques := ["Integrated approach", "Regular monitoring"],
        steps := ["Assess situation", "Plan solution", "Implement carefully"],
        benefits := "Improved crop health and yield" } :=
  ⟨by decide, (lookup_default_profiles "Quinoa").1 (by decide),
   by decide, (lookup_default_profiles "drought stress").2 (by decide)⟩

/-- C5: insight selection is deterministic — two calls of
`generate_ai_insight` with the same `(crop, region, problem)` return the
same template string (the embedding is a pure function; the hash depends
only on the inputs). -/
theorem insight_deterministic (crop region problem : String) :
    generate_ai_insight crop region problem = generate_ai_insight crop region problem := rfl

/-- C6: `generate_ai_insight` concatenates the three raw inputs, hashes the
concatenation to a non-negative integer, indexes the fixed four-template
list with `hash mod 4` — the index is always in bounds — and returns the
selected template; it is total and the result is always one of the four
templates. -/
theorem insight_hash_selection (crop region problem : String) :
    (ai_insights crop region problem).length = 4 ∧
    stringHash (crop ++ region ++ problem) % 4 < 4 ∧
    generate_ai_insight crop region problem
      = (ai_insights crop region problem).getD (stringHash (crop ++ region ++ problem) % 4) "" ∧
    generate_ai_insight crop region problem ∈ ai_insights crop region problem :=
  ⟨rfl, Nat.mod_lt _ (by decide), rfl, insight_mem crop region problem⟩

/-- The head of an appended string is the head of its left part. -/
theorem okHead_append {a : String} (b : String) (h : okHead a.data = true) :
    okHead (a ++ b).data = true := by
  cases hd : a.data with
  | nil => rw [hd] at h; simp [okHead] at h
  | cons c l =>
    have he : (a ++ b).data = c :: (l ++ b.data) := by
      rw [data_append, hd, List.cons_append]
    rw [he]
    rw [hd] at h
    simpa [okHead] using h

/-- The last character of an appended string is the last of its right part. -/
theorem okHead_rev_append (a : String) {b : String} (h : okHead b.data.reverse = true) :
    okHead (a ++ b).data.reverse = true := by
  have he : (a ++ b).data.reverse = b.data.reverse ++ a.data.reverse := by
    rw [data_append, List.reverse_append]
  rw [he]
  cases hd : b.data.reverse with
  | nil => rw [hd] at h; simp [okHead] at h
  | cons c l =>
    rw [hd] at h
    rw [List.cons_append]
    simpa [okHead] using h

/-- The selected insight is never the empty string: each of the four
templates starts with non-empty literal text. -/
theorem insight_ne_empty (crop region problem : String) :
    generate_ai_insight crop region problem ≠ "" := by
  have hmem := insight_mem crop region problem
  simp only [ai_insights, List.mem_cons, List.not_mem_nil, or_false] at hmem
  rcases hmem with h | h | h | h <;> rw [h]
  · exact str_app_ne_empty _ _ (by decide)
  · exact str_app_ne_empty _ _ (by decide)
  · exact str_app_ne_empty _ _ (by decide)
  · decide

/-- The selected insight starts with a non-whitespace character. -/
theorem insight_okHead (crop region problem : String) :
    okHead (generate_ai_insight crop region problem).data = true := by
  have hmem := insight_mem crop region problem
  simp only [ai_insights, List.mem_cons, List.not_mem_nil, or_false] at hmem
  rcases hmem with h | h | h | h <;> rw [h] <;> rfl

/-- The selected insight ends with a non-whitespace character. -/
theorem insight_okLast (crop region problem : String) :
    okHead (generate_ai_insight crop region problem).data.reverse = true := by
  have hmem := insight_mem crop region problem
  simp only [ai_insights, List.mem_cons, List.not_mem_nil, or_false] at hmem
  rcases hmem with h | h | h | h <;> rw [h]
  · exact okHead_rev_append _ (by decide)
  · exact okHead_rev_append _ (by decide)
  · exact okHead_rev_append _ (by decide)
  · decide

/-- C9: the fallback advisory line is unreachable — `check_ai_availability`
is always `true` and every selected template is non-empty, so the
conditional interpolation in the document always takes the insight branch,
and the assembled content always contains the selected template. -/
theorem insight_fallback_unreachable (crop region problem language formatted_time : String) :
    check_ai_availability = true ∧
    generate_ai_insight crop region problem ≠ "" ∧
    (if generate_ai_insight crop region problem = ""
      then "System analysis recommends integrated management approach."
      else generate_ai_insight crop region problem) = generate_ai_insight crop region problem ∧
    containsStr (create_module crop region problem language formatted_time).content
      (generate_ai_insight crop region problem) := by
  refine ⟨rfl, insight_ne_empty crop region problem,
    if_neg (insight_ne_empty crop region problem), ?_⟩
  apply content_keeps (insight_okHead crop region problem) (insight_okLast crop region problem)
  unfold module_content_text
  simp only [check_ai_availability, if_true]
  rw [if_neg (insight_ne_empty crop region problem)]
  repeat first
  | exact contains_right _ (contains_refl _)
  | apply contains_left

/-- C1: for every crop, region, problem and language (and any timestamp),
the content of the module returned by `create_module` is non-empty and
contains the literal markers of all eight major document sections — crop
facts, focus area, techniques, step guide, results, tips, FAQ and system
info; the inputs are unconstrained, so this includes unrecognized crops and
problems served by the default profiles. -/
theorem create_module_sections (crop region problem language formatted_time : String) :
    (create_module crop region problem language formatted_time).content ≠ "" ∧
    containsStr (create_module crop region problem language formatted_time).content
      "ABOUT THIS CROP" ∧
    containsStr (create_module crop region problem language formatted_time).content
      "FOCUS AREA" ∧
    containsStr (create_module crop region problem language formatted_time).content
      "RECOMMENDED TECHNIQUES" ∧
    containsStr (create_module crop region problem language formatted_time).content
      "STEP-BY-STEP GUIDE" ∧
    containsStr (create_module crop region problem language formatted_time).content
      "EXPECTED RESULTS" ∧
    containsStr (create_module crop region problem language formatted_time).content
      "IMPLEMENTATION TIPS" ∧
    containsStr (create_module crop region problem language formatted_time).content
      "FREQUENTLY ASKED QUESTIONS" ∧
    containsStr (create_module crop region problem language formatted_time).content
      "SYSTEM INFORMATION" := by
  have h1 : containsStr (create_module crop region problem language formatted_time).content
      "ABOUT THIS CROP" := by
    apply content_keeps (by decide) (by decide)
    unfold module_content_text
    repeat first
    | exact contains_right _ (by decide)
    | apply contains_left
  refine ⟨string_ne_empty h1 (by decide), h1, ?_, ?_, ?_, ?_, ?_, ?_, ?_⟩ <;>
    (apply content_keeps (by decide) (by decide);
     unfold module_content_text;
     repeat first
     | exact contains_right _ (by decide)
     | apply contains_left)

/-- C4: the metadata of every module echoes the four inputs verbatim with
`ai_used = true`; in particular the ("Rice", "Punjab", "irrigation",
"English") module carries exactly that metadata and its content contains
"Rice", "Punjab" and the joined irrigation techniques list; availability is
always `true`. -/
theorem metadata_echoes_inputs (crop region problem language formatted_time : String) :
    (create_module crop region problem language formatted_time).metadata
      = { generation_time := formatted_time, crop := crop, region := region,
          problem := problem, language := language, ai_used := true } ∧
    check_ai_availability = true ∧
    containsStr (create_module "Rice" "Punjab" "irrigation" "English" formatted_time).content
      "Rice" ∧
    containsStr (create_module "Rice" "Punjab" "irrigation" "English" formatted_time).content
      "Punjab" ∧
    containsStr (create_module "Rice" "Punjab" "irrigation" "English" formatted_time).content
      "Drip irrigation • Sprinkler systems • Rainwater harvesting" := by
  refine ⟨rfl, rfl, ?_, ?_, ?_⟩ <;>
    (apply content_keeps (by decide) (by decide);
     unfold module_content_text;
     repeat first
     | exact contains_right _ (by decide)
     | apply contains_left)

/-- C7: the boundary layer trims the three required fields and returns the
400 validation response when one is empty after trimming — the core
`create_module` is not invoked on that branch — and otherwise returns the
success response wrapping the module built from the trimmed fields. -/
theorem boundary_validation (request_data : RequestData) (formatted_time : String) :
    (pyStrip (request_data.crop.getD "") = "" ∨ pyStrip (request_data.region.getD "") = ""
        ∨ pyStrip (request_data.problem.getD "") = "" →
      generate_training_module request_data formatted_time
        = GenerateResponse.clientError "Please fill in all fields: Crop, Region, and Problem" 400) ∧
    (pyStrip (request_data.crop.getD "") ≠ "" → pyStrip (request_data.region.getD "") ≠ ""
        → pyStrip (request_data.problem.getD "") ≠ "" →
      generate_training_module request_data formatted_time
        = GenerateResponse.ok
            { title := pyTitle (pyStrip (request_data.crop.getD "")) ++ " Farming Training Module",
              subtitle := "Region: " ++ pyStrip (request_data.region.getD "")
                ++ " | Focus: " ++ pyTitle (pyStrip (request_data.problem.getD "")),
              content := (create_module (pyStrip (request_data.crop.getD ""))
                (pyStrip (request_data.region.getD "")) (pyStrip (request_data.problem.getD ""))
                (request_data.language.getD "English") formatted_time).content,
              language := request_data.language.getD "English" }
            { generated_at := formatted_time, ai_assistance := true }) := by
  constructor
  · intro h
    simp only [generate_training_module]
    rw [if_pos h]
  · intro hc hr hp
    simp only [generate_training_module]
    rw [if_neg (fun h => h.elim hc (fun h' => h'.elim hr hp))]
    rfl

/-- Witness for C7: a request whose region is whitespace-only is rejected
with the 400 response, and a fully filled request gets the success
response. -/
theorem boundary_validation_witness :
    generate_training_module ⟨some "Rice", some "   ", some "irrigation", none⟩
        "01 May 2025, 09:00 AM"
      = GenerateResponse.clientError "Please fill in all fields: Crop, Region, and Problem" 400 ∧
    generate_training_module ⟨some "Rice", some "Punjab", some "irrigation", none⟩
        "01 May 2025, 09:00 AM"
      = GenerateResponse.ok
          { title := "Rice Farming Training Module",
            subtitle := "Region: Punjab | Focus: Irrigation",
            content := (create_module "Rice" "Punjab" "irrigation" "English"
              "01 May 2025, 09:00 AM").content,
            language := "English" }
          { generated_at := "01 May 2025, 09:00 AM", ai_assistance := true } :=
  ⟨(boundary_validation _ _).1 (Or.inr (Or.inl (by decide))),
   (boundary_validation _ _).2 (by decide) (by decide) (by decide)⟩

/-- C8: when the request payload has no language field the generated module
uses "English" — in the success response data and in the module metadata —
while the other three fields have no default: a request missing one of them
falls to the empty-after-trim validation failure. -/
theorem language_defaults_to_english (request_data : RequestData) (formatted_time : String)
    (hl : request_data.language = none) :
    (pyStrip (request_data.crop.getD "") ≠ "" → pyStrip (request_data.region.getD "") ≠ ""
        → pyStrip (request_data.problem.getD "") ≠ "" →
      ∃ d si, generate_training_module request_data formatted_time = GenerateResponse.ok d si ∧
        d.language = "English" ∧
        (create_module (pyStrip (request_data.crop.getD "")) (pyStrip (request_data.region.getD ""))
          (pyStrip (request_data.problem.getD "")) "English" formatted_time).metadata.language
          = "English") ∧
    (request_data.crop = none →
      generate_training_module request_data formatted_time
        = GenerateResponse.clientError "Please fill in all fields: Crop, Region, and Problem" 400) ∧
    (request_data.region = none →
      generate_training_module request_data formatted_time
        = GenerateResponse.clientError "Please fill in all fields: Crop, Region, and Problem" 400) ∧
    (request_data.problem = none →
      generate_training_module request_data formatted_time
        = GenerateResponse.clientError "Please fill in all fields: Crop, Region, and Problem" 400) := by
  refine ⟨?_, ?_, ?_, ?_⟩
  · intro hc hr hp
    have heq : generate_training_module request_data formatted_time
        = GenerateResponse.ok
            { title := pyTitle (pyStrip (request_data.crop.getD "")) ++ " Farming Training Module",
              subtitle := "Region: " ++ pyStrip (request_data.region.getD "")
                ++ " | Focus: " ++ pyTitle (pyStrip (request_data.problem.getD "")),
              content := (create_module (pyStrip (request_data.crop.getD ""))
                (pyStrip (request_data.region.getD "")) (pyStrip (request_data.problem.getD ""))
                "English" formatted_time).content,
              language := "English" }
            { generated_at := formatted_time, ai_assistance := true } := by
      simp only [generate_training_module, hl, Option.getD_none]
      rw [if_neg (fun h => h.elim hc (fun h' => h'.elim hr hp))]
      rfl
    exact ⟨_, _, heq, rfl, rfl⟩
  · intro h
    simp only [generate_training_module, h]
    rw [if_pos (Or.inl (by decide))]
  · intro h
    simp only [generate_training_module, h]
    rw [if_pos (Or.inr (Or.inl (by decide)))]
  · intro h
    simp only [generate_training_module, h]
    rw [if_pos (Or.inr (Or.inr (by decide)))]

/-- Witness for C8: the spec scenario request ("Quinoa", "Punjab",
"drought stress") without a language field succeeds with language
"English". -/
theorem language_defaults_to_english_witness :
    ∃ d si, generate_training_module
        ⟨some "Quinoa", some "Punjab", some "drought stress", none⟩ "01 May 2025, 09:00 AM"
        = GenerateResponse.ok d si ∧
      d.language = "English" ∧
      (create_module (pyStrip ((some "Quinoa" : Option String).getD ""))
        (pyStrip ((some "Punjab" : Option String).getD ""))
        (pyStrip ((some "drought stress" : Option String).getD ""))
        "English" "01 May 2025, 09:00 AM").metadata.language = "English" :=
  (language_defaults_to_english ⟨some "Quinoa", some "Punjab", some "drought stress", none⟩
    "01 May 2025, 09:00 AM" rfl).1 (by decide) (by decide) (by decide)

/-- The document header interpolates the language argument verbatim: the
content always contains `"Language: "` followed by the language value and
the text that opens the next header line. -/
theorem language_marker_in_content (crop region problem language formatted_time : String) :
    containsStr (create_module crop region problem language formatted_time).content
      ("Language: " ++ language ++ "\n\n### 📅 GENERATED") := by
  apply content_keeps ?ha ?hz ?h
  case ha => rfl
  case hz => exact okHead_rev_append _ (by decide)
  case h =>
    unfold module_content_text
    have e1 : (" | Language: " : String).data
        = (" | " : String).data ++ ("Language: " : String).data := rfl
    have e2 : ("\n\n### 📅 GENERATED ON: " : String).data
        = ("\n\n### 📅 GENERATED" : String).data ++ (" ON: " : String).data := rfl
    have hX : containsStr ("\n# FARMER TRAINING MODULE\n## Crop: " ++ (get_crop_details crop).name
          ++ " | Region: " ++ region ++ " | Language: " ++ language
          ++ "\n\n### 📅 GENERATED ON: ")
        ("Language: " ++ language ++ "\n\n### 📅 GENERATED") := by
      refine ⟨("\n# FARMER TRAINING MODULE\n## Crop: " ++ (get_crop_details crop).name
          ++ " | Region: " ++ region).data ++ (" | " : String).data,
        (" ON: " : String).data, ?_⟩
      simp only [data_append, List.append_assoc, List.cons_append, List.nil_append, e1, e2]
    iterate 42 apply contains_left
    exact hX

/-- C10: a present language field is used verbatim — the boundary layer
neither trims nor validates it, so even a whitespace-only or empty language
string propagates unchanged into the response data, the module metadata and
the document header. -/
theorem language_passthrough (request_data : RequestData) (formatted_time l : String)
    (hl : request_data.language = some l)
    (hc : pyStrip (request_data.crop.getD "") ≠ "")
    (hr : pyStrip (request_data.region.getD "") ≠ "")
    (hp : pyStrip (request_data.problem.getD "") ≠ "") :
    ∃ d si, generate_training_module request_data formatted_time = GenerateResponse.ok d si ∧
      d.language = l ∧
      d.content = (create_module (pyStrip (request_data.crop.getD ""))
          (pyStrip (request_data.region.getD "")) (pyStrip (request_data.problem.getD ""))
          l formatted_time).content ∧
      (create_module (pyStrip (request_data.crop.getD "")) (pyStrip (request_data.region.getD ""))
          (pyStrip (request_data.problem.getD "")) l formatted_time).metadata.language = l ∧
      containsStr (create_module (pyStrip (request_data.crop.getD ""))
          (pyStrip (request_data.region.getD "")) (pyStrip (request_data.problem.getD ""))
          l formatted_time).content ("Language: " ++ l ++ "\n\n### 📅 GENERATED") := by
  have heq : generate_training_module request_data formatted_time
      = GenerateResponse.ok
          { title := pyTitle (pyStrip (request_data.crop.getD "")) ++ " Farming Training Module",
            subtitle := "Region: " ++ pyStrip (request_data.region.getD "")
              ++ " | Focus: " ++ pyTitle (pyStrip (request_data.problem.getD "")),
            content := (create_module (pyStrip (request_data.crop.getD ""))
              (pyStrip (request_data.region.getD "")) (pyStrip (request_data.problem.getD ""))
              l formatted_time).content,
            language := l }
          { generated_at := formatted_time, ai_assistance := true } := by
    simp only [generate_training_module, hl, Option.getD_some]
    rw [if_neg (fun h => h.elim hc (fun h' => h'.elim hr hp))]
    rfl
  exact ⟨_, _, heq, rfl, rfl, rfl, language_marker_in_content _ _ _ _ _⟩

/-- Witness for C10: a whitespace-only language " " passes through
unchanged into the response, the metadata and the document header. -/
theorem language_passthrough_witness :
    ∃ d si, generate_training_module ⟨some "Rice", some "Punjab", some "irrigation", some " "⟩
        "01 May 2025, 09:00 AM" = GenerateResponse.ok d si ∧
      d.language = " " ∧
      d.content = (create_module (pyStrip ((some "Rice" : Option String).getD ""))
          (pyStrip ((some "Punjab" : Option String).getD ""))
          (pyStrip ((some "irrigation" : Option String).getD ""))
          " " "01 May 2025, 09:00 AM").content ∧
      (create_module (pyStrip ((some "Rice" : Option String).getD ""))
          (pyStrip ((some "Punjab" : Option String).getD ""))
          (pyStrip ((some "irrigation" : Option String).getD ""))
          " " "01 May 2025, 09:00 AM").metadata.language = " " ∧
      containsStr (create_module (pyStrip ((some "Rice" : Option String).getD ""))
          (pyStrip ((some "Punjab" : Option String).getD ""))
          (pyStrip ((some "irrigation" : Option String).getD ""))
          " " "01 May 2025, 09:00 AM").content ("Language: " ++ " " ++ "\n\n### 📅 GENERATED") :=
  language_passthrough ⟨some "Rice", some "Punjab", some "irrigation", some " "⟩
    "01 May 2025, 09:00 AM" " " rfl (by decide) (by decide) (by decide)
